import Mathlib

/- Shallow embedding of the Portfolio-Tracker core (src/main_file.py, class
PortfolioTracker).  Python floats are modelled as rationals, the JSON file as an
optional Portfolio value, and the Yahoo-Finance provider as an explicit outcome
parameter.  Display-formatted string fields of the report rows (for example
"$100.00") are modelled by the underlying numeric values. -/

/- Python str.upper over the characters of the string (ASCII case mapping,
which is what the tracked ticker and pair names use). -/
def pyUpper (s : String) : String :=
  ⟨s.data.map Char.toUpper⟩

/- Python str.endswith: the last characters of s equal the suffix. -/
def pyEndsWith (s suffix : String) : Bool :=
  decide (s.data.drop (s.data.length - suffix.data.length) = suffix.data)

/- Python str.replace on character lists, left to right, non-overlapping;
fuelled by the length of the scanned list (a non-empty pattern consumes at
least one character per step, so the fuel suffices). -/
def pyReplaceAux (pat rep : List Char) : Nat → List Char → List Char
  | 0, l => l
  | _ + 1, [] => []
  | fuel + 1, c :: rest =>
    if pat ≠ [] ∧ pat.isPrefixOf (c :: rest) then
      rep ++ pyReplaceAux pat rep fuel ((c :: rest).drop pat.length)
    else
      c :: pyReplaceAux pat rep fuel rest

def pyReplace (s pat rep : String) : String :=
  ⟨pyReplaceAux pat.data rep.data s.data.length s.data⟩

/- Records of the three holding categories, with the field names used by the
JSON documents the tracker stores ("date_added" is the creation timestamp
string). -/

structure Stock where
  symbol : String
  quantity : ℚ
  purchase_price : ℚ
  date_added : String
deriving DecidableEq

structure Bullion where
  metal : String
  symbol : String
  quantity : ℚ
  purchase_price : ℚ
  date_added : String
deriving DecidableEq

structure Forex where
  pair : String
  quantity : ℚ
  purchase_price : ℚ
  date_added : String
deriving DecidableEq

/- self.portfolio: a dict with exactly the keys "stocks", "bullions",
"forex". -/
structure Portfolio where
  stocks : List Stock
  bullions : List Bullion
  forex : List Forex
deriving DecidableEq

def emptyPortfolio : Portfolio := ⟨[], [], []⟩

/- Errors a tracker operation can raise: a write failure inside
save_portfolio, and the KeyError of symbol_map[metal] in add_bullion. -/
inductive OpError
  | persistence
  | keyError
deriving DecidableEq

/- The tracker state: the in-memory portfolio plus the persisted document
(none when portfolio.json does not exist). -/
structure Tracker where
  portfolio : Portfolio
  file : Option Portfolio
deriving DecidableEq

/- load_portfolio: the stored document if the file exists, otherwise the
empty structure. -/
def load_portfolio : Option Portfolio → Portfolio
  | some p => p
  | none => emptyPortfolio

/- save_portfolio: writes self.portfolio to the file.  The writeOk flag is
the environment deciding whether the write succeeds; on failure the
exception is surfaced and the document is left as it was. -/
def save_portfolio (writeOk : Bool) (t : Tracker) : Tracker × Except OpError Unit :=
  if writeOk then ({ t with file := some t.portfolio }, .ok ())
  else (t, .error .persistence)

/- add_stock: appends the uppercased symbol with the given quantity and
purchase price (no validation), then saves.  The in-memory append happens
before the save, exactly as in the Python method. -/
def add_stock (writeOk : Bool) (symbol : String) (quantity purchase_price : ℚ)
    (now : String) (t : Tracker) : Tracker × Except OpError Unit :=
  save_portfolio writeOk
    { t with portfolio :=
      { t.portfolio with stocks :=
        t.portfolio.stocks ++ [⟨pyUpper symbol, quantity, purchase_price, now⟩] } }

/- The symbol_map dict of add_bullion. -/
def bullionSymbolMap : String → Option String
  | "Gold" => some "GC=F"
  | "Silver" => some "SI=F"
  | "Platinum" => some "PL=F"
  | "Palladium" => some "PA=F"
  | _ => none

/- add_bullion: symbol_map[metal] raises KeyError for a metal outside the
map (before any mutation); otherwise append and save. -/
def add_bullion (writeOk : Bool) (metal : String) (quantity purchase_price : ℚ)
    (now : String) (t : Tracker) : Tracker × Except OpError Unit :=
  match bullionSymbolMap metal with
  | none => (t, .error .keyError)
  | some sym =>
    save_portfolio writeOk
      { t with portfolio :=
        { t.portfolio with bullions :=
          t.portfolio.bullions ++ [⟨metal, sym, quantity, purchase_price, now⟩] } }

/- The pair normalization at the top of add_forex. -/
def normalizePair (pair : String) : String :=
  if pyEndsWith pair "=X" then pair else pyUpper pair ++ "=X"

def add_forex (writeOk : Bool) (pair : String) (quantity purchase_price : ℚ)
    (now : String) (t : Tracker) : Tracker × Except OpError Unit :=
  save_portfolio writeOk
    { t with portfolio :=
      { t.portfolio with forex :=
        t.portfolio.forex ++ [⟨normalizePair pair, quantity, purchase_price, now⟩] } }

/- remove_holding(category, index): pops and saves when the category is a
key of the portfolio dict and 0 <= index < len, returning True; otherwise
returns False without touching anything. -/
def remove_holding (writeOk : Bool) (category : String) (index : ℤ)
    (t : Tracker) : Tracker × Except OpError Bool :=
  if category = "stocks" then
    if 0 ≤ index ∧ index < (t.portfolio.stocks.length : ℤ) then
      let r := save_portfolio writeOk
        { t with portfolio :=
          { t.portfolio with stocks := t.portfolio.stocks.eraseIdx index.toNat } }
      (r.1, r.2.map fun _ => true)
    else (t, .ok false)
  else if category = "bullions" then
    if 0 ≤ index ∧ index < (t.portfolio.bullions.length : ℤ) then
      let r := save_portfolio writeOk
        { t with portfolio :=
          { t.portfolio with bullions := t.portfolio.bullions.eraseIdx index.toNat } }
      (r.1, r.2.map fun _ => true)
    else (t, .ok false)
  else if category = "forex" then
    if 0 ≤ index ∧ index < (t.portfolio.forex.length : ℤ) then
      let r := save_portfolio writeOk
        { t with portfolio :=
          { t.portfolio with forex := t.portfolio.forex.eraseIdx index.toNat } }
      (r.1, r.2.map fun _ => true)
    else (t, .ok false)
  else (t, .ok false)

/- clear_portfolio: replace the in-memory dict with the empty structure and
save. -/
def clear_portfolio (writeOk : Bool) (t : Tracker) : Tracker × Except OpError Unit :=
  save_portfolio writeOk { t with portfolio := emptyPortfolio }

/- One call to the market-data provider: it either raises, or delivers the
one-day price history (the Close column) the code reads its last entry
from. -/
inductive ProviderOutcome
  | raise
  | history (closes : List ℚ)

/- Python round(x, 2) on the idealized real value: round half to even at
two decimal places. -/
def roundHalfEven (q : ℚ) : ℤ :=
  if q - ⌊q⌋ < 1 / 2 then ⌊q⌋
  else if q - ⌊q⌋ > 1 / 2 then ⌊q⌋ + 1
  else if ⌊q⌋ % 2 = 0 then ⌊q⌋ else ⌊q⌋ + 1

def round2 (q : ℚ) : ℚ := (roundHalfEven (q * 100) : ℚ) / 100

/- get_current_price: any provider exception is caught and mapped to
(0.0, "Error"); an empty history gives (0.0, "No data"); otherwise the last
close, rounded to two decimals, with status "Success". -/
def get_current_price (outcome : ProviderOutcome) : ℚ × String :=
  match outcome with
  | .raise => (0, "Error")
  | .history closes =>
    match closes.getLast? with
    | none => (0, "No data")
    | some c => (round2 c, "Success")

/- A row of the report table built by get_portfolio_data.  The two
display-formatted price columns are modelled by their numeric values. -/
structure Position where
  type : String
  symbol : String
  quantity : ℚ
  buyPrice : ℚ
  currentPrice : ℚ
  invested : ℚ
  currentValue : ℚ
  pnl : ℚ
  pnlPct : ℚ
  dateAdded : String
deriving DecidableEq

def stockPosition (cp : ℚ) (s : Stock) : Position :=
  { type := "📈 Stock", symbol := s.symbol, quantity := s.quantity
    buyPrice := s.purchase_price, currentPrice := cp
    invested := s.quantity * s.purchase_price
    currentValue := s.quantity * cp
    pnl := s.quantity * cp - s.quantity * s.purchase_price
    pnlPct := (s.quantity * cp - s.quantity * s.purchase_price) / (s.quantity * s.purchase_price) * 100
    dateAdded := s.date_added }

def bullionPosition (cp : ℚ) (b : Bullion) : Position :=
  { type := "🥇 Bullion", symbol := b.metal, quantity := b.quantity
    buyPrice := b.purchase_price, currentPrice := cp
    invested := b.quantity * b.purchase_price
    currentValue := b.quantity * cp
    pnl := b.quantity * cp - b.quantity * b.purchase_price
    pnlPct := (b.quantity * cp - b.quantity * b.purchase_price) / (b.quantity * b.purchase_price) * 100
    dateAdded := b.date_added }

def forexPosition (cp : ℚ) (f : Forex) : Position :=
  { type := "💱 Forex", symbol := pyReplace f.pair "=X" "", quantity := f.quantity
    buyPrice := f.purchase_price, currentPrice := cp
    invested := f.quantity * f.purchase_price
    currentValue := f.quantity * cp
    pnl := f.quantity * cp - f.quantity * f.purchase_price
    pnlPct := (f.quantity * cp - f.quantity * f.purchase_price) / (f.quantity * f.purchase_price) * 100
    dateAdded := f.date_added }

/- The error a valuation pass can raise: pnl / invested with invested equal
to zero is a Python ZeroDivisionError. -/
inductive PyError
  | zeroDivision
deriving DecidableEq

/- One category loop of get_portfolio_data: skip the holding when the
fetched price is not positive; otherwise compute invested, current value,
P and L, and the P and L percentage (raising on a zero invested amount),
append the row and accumulate both totals. -/
def processHoldings (lookupSym : α → String) (qty buyP : α → ℚ) (mk : ℚ → α → Position)
    (price : String → ℚ × String) : List α → Except PyError (List Position × ℚ × ℚ)
  | [] => .ok ([], 0, 0)
  | a :: rest =>
    if 0 < (price (lookupSym a)).1 then
      if qty a * buyP a = 0 then .error .zeroDivision
      else
        match processHoldings lookupSym qty buyP mk price rest with
        | .error e => .error e
        | .ok (ps, ti, tc) =>
          .ok (mk (price (lookupSym a)).1 a :: ps,
            qty a * buyP a + ti,
            qty a * (price (lookupSym a)).1 + tc)
    else processHoldings lookupSym qty buyP mk price rest

/- The price function get_portfolio_data uses: one oracle call per lookup
symbol. -/
def oraclePrice (provider : String → ProviderOutcome) : String → ℚ × String :=
  fun s => get_current_price (provider s)

/- get_portfolio_data: the three category loops in order (stocks, bullions,
forex), then the grand totals and the guarded total P and L. -/
def get_portfolio_data (provider : String → ProviderOutcome) (p : Portfolio) :
    Except PyError (List Position × ℚ × ℚ × ℚ) :=
  match processHoldings Stock.symbol Stock.quantity Stock.purchase_price stockPosition
      (oraclePrice provider) p.stocks with
  | .error e => .error e
  | .ok (sp, si, sc) =>
    match processHoldings Bullion.symbol Bullion.quantity Bullion.purchase_price bullionPosition
        (oraclePrice provider) p.bullions with
    | .error e => .error e
    | .ok (bp, bi, bc) =>
      match processHoldings Forex.pair Forex.quantity Forex.purchase_price forexPosition
          (oraclePrice provider) p.forex with
      | .error e => .error e
      | .ok (fp, fi, fc) =>
        .ok (sp ++ bp ++ fp, si + bi + fi, sc + bc + fc,
          if 0 < si + bi + fi then sc + bc + fc - (si + bi + fi) else 0)

/- The holdings of a list whose fetched price is positive: exactly the ones
a valuation pass keeps. -/
def includedBy (lookupSym : α → String) (price : String → ℚ × String) (l : List α) : List α :=
  l.filter fun a => decide (0 < (price (lookupSym a)).1)

def includedStocks (provider : String → ProviderOutcome) (p : Portfolio) : List Stock :=
  includedBy Stock.symbol (oraclePrice provider) p.stocks

def includedBullions (provider : String → ProviderOutcome) (p : Portfolio) : List Bullion :=
  includedBy Bullion.symbol (oraclePrice provider) p.bullions

def includedForex (provider : String → ProviderOutcome) (p : Portfolio) : List Forex :=
  includedBy Forex.pair (oraclePrice provider) p.forex

def stockRows (provider : String → ProviderOutcome) (p : Portfolio) : List Position :=
  (includedStocks provider p).map fun s => stockPosition (oraclePrice provider s.symbol).1 s

def bullionRows (provider : String → ProviderOutcome) (p : Portfolio) : List Position :=
  (includedBullions provider p).map fun b => bullionPosition (oraclePrice provider b.symbol).1 b

def forexRows (provider : String → ProviderOutcome) (p : Portfolio) : List Position :=
  (includedForex provider p).map fun f => forexPosition (oraclePrice provider f.pair).1 f

def stocksInvested (provider : String → ProviderOutcome) (p : Portfolio) : ℚ :=
  ((includedStocks provider p).map fun s => s.quantity * s.purchase_price).sum

def stocksCurrent (provider : String → ProviderOutcome) (p : Portfolio) : ℚ :=
  ((includedStocks provider p).map fun s => s.quantity * (oraclePrice provider s.symbol).1).sum

def bullionsInvested (provider : String → ProviderOutcome) (p : Portfolio) : ℚ :=
  ((includedBullions provider p).map fun b => b.quantity * b.purchase_price).sum

def bullionsCurrent (provider : String → ProviderOutcome) (p : Portfolio) : ℚ :=
  ((includedBullions provider p).map fun b => b.quantity * (oraclePrice provider b.symbol).1).sum

def forexInvested (provider : String → ProviderOutcome) (p : Portfolio) : ℚ :=
  ((includedForex provider p).map fun f => f.quantity * f.purchase_price).sum

def forexCurrent (provider : String → ProviderOutcome) (p : Portfolio) : ℚ :=
  ((includedForex provider p).map fun f => f.quantity * (oraclePrice provider f.pair).1).sum

lemma processHoldings_eq (lookupSym : α → String) (qty buyP : α → ℚ) (mk : ℚ → α → Position)
    (price : String → ℚ × String) (l : List α)
    (h : ∀ a ∈ l, 0 < (price (lookupSym a)).1 → qty a * buyP a ≠ 0) :
    processHoldings lookupSym qty buyP mk price l =
      .ok ((includedBy lookupSym price l).map (fun a => mk (price (lookupSym a)).1 a),
        ((includedBy lookupSym price l).map (fun a => qty a * buyP a)).sum,
        ((includedBy lookupSym price l).map (fun a => qty a * (price (lookupSym a)).1)).sum) := by
  induction l with
  | nil => simp [processHoldings, includedBy]
  | cons a rest ih =>
    have hrest : ∀ b ∈ rest, 0 < (price (lookupSym b)).1 → qty b * buyP b ≠ 0 :=
      fun b hb => h b (List.mem_cons_of_mem _ hb)
    by_cases hcp : 0 < (price (lookupSym a)).1
    · have hinv : qty a * buyP a ≠ 0 := h a (List.mem_cons_self _ _) hcp
      rw [processHoldings, if_pos hcp, if_neg hinv, ih hrest]
      simp [includedBy, List.filter_cons, hcp]
    · rw [processHoldings, if_neg hcp, ih hrest]
      simp [includedBy, List.filter_cons, hcp]

lemma processHoldings_ok_no_div (lookupSym : α → String) (qty buyP : α → ℚ)
    (mk : ℚ → α → Position) (price : String → ℚ × String) (l : List α)
    (x : List Position × ℚ × ℚ)
    (hok : processHoldings lookupSym qty buyP mk price l = .ok x) :
    ∀ a ∈ l, 0 < (price (lookupSym a)).1 → qty a * buyP a ≠ 0 := by
  induction l generalizing x with
  | nil => intro a ha; exact absurd ha (List.not_mem_nil a)
  | cons a rest ih =>
    intro b hb hbp
    rw [processHoldings] at hok
    by_cases hcp : 0 < (price (lookupSym a)).1
    · rw [if_pos hcp] at hok
      by_cases hinv : qty a * buyP a = 0
      · rw [if_pos hinv] at hok
        exact absurd hok (by simp)
      · rw [if_neg hinv] at hok
        rcases List.mem_cons.mp hb with rfl | hb
        · exact hinv
        · cases hr : processHoldings lookupSym qty buyP mk price rest with
          | error e => rw [hr] at hok; simp at hok
          | ok v => exact ih v hr b hb hbp
    · rw [if_neg hcp] at hok
      rcases List.mem_cons.mp hb with rfl | hb
      · exact absurd hbp hcp
      · exact ih x hok b hb hbp

/- Everything get_portfolio_data reports, extracted from a successful pass:
the rows are the included holdings of the three categories in order, the
totals are the corresponding sums, and the total P and L is guarded. -/
lemma get_portfolio_data_ok (provider : String → ProviderOutcome) (p : Portfolio)
    (pos : List Position) (ti tc pnl : ℚ)
    (hok : get_portfolio_data provider p = .ok (pos, ti, tc, pnl)) :
    pos = stockRows provider p ++ bullionRows provider p ++ forexRows provider p ∧
    ti = stocksInvested provider p + bullionsInvested provider p + forexInvested provider p ∧
    tc = stocksCurrent provider p + bullionsCurrent provider p + forexCurrent provider p ∧
    pnl = if 0 < ti then tc - ti else 0 := by
  rw [get_portfolio_data] at hok
  cases hs : processHoldings Stock.symbol Stock.quantity Stock.purchase_price stockPosition
      (oraclePrice provider) p.stocks with
  | error e => rw [hs] at hok; simp at hok
  | ok sv =>
    obtain ⟨sp, si, sc⟩ := sv
    rw [hs] at hok
    cases hb : processHoldings Bullion.symbol Bullion.quantity Bullion.purchase_price
        bullionPosition (oraclePrice provider) p.bullions with
    | error e => rw [hb] at hok; simp at hok
    | ok bv =>
      obtain ⟨bp, bi, bc⟩ := bv
      rw [hb] at hok
      cases hf : processHoldings Forex.pair Forex.quantity Forex.purchase_price
          forexPosition (oraclePrice provider) p.forex with
      | error e => rw [hf] at hok; simp at hok
      | ok fv =>
        obtain ⟨fp, fi, fc⟩ := fv
        rw [hf] at hok
        simp only [Except.ok.injEq, Prod.mk.injEq] at hok
        obtain ⟨hpos, hti, htc, hpnl⟩ := hok
        have hs2 := processHoldings_eq Stock.symbol Stock.quantity Stock.purchase_price
          stockPosition (oraclePrice provider) p.stocks
          (processHoldings_ok_no_div _ _ _ _ _ _ _ hs)
        have hb2 := processHoldings_eq Bullion.symbol Bullion.quantity Bullion.purchase_price
          bullionPosition (oraclePrice provider) p.bullions
          (processHoldings_ok_no_div _ _ _ _ _ _ _ hb)
        have hf2 := processHoldings_eq Forex.pair Forex.quantity Forex.purchase_price
          forexPosition (oraclePrice provider) p.forex
          (processHoldings_ok_no_div _ _ _ _ _ _ _ hf)
        rw [hs] at hs2
        rw [hb] at hb2
        rw [hf] at hf2
        simp only [Except.ok.injEq, Prod.mk.injEq] at hs2 hb2 hf2
        obtain ⟨hsp, hsi, hsc⟩ := hs2
        obtain ⟨hbp, hbi, hbc⟩ := hb2
        obtain ⟨hfp, hfi, hfc⟩ := hf2
        refine ⟨?_, ?_, ?_, ?_⟩
        · rw [← hpos, hsp, hbp, hfp]
          rfl
        · rw [← hti, hsi, hbi, hfi]
          rfl
        · rw [← htc, hsc, hbc, hfc]
          rfl
        · rw [← hpnl, hti, htc]

/- All stored quantities and purchase prices are nonnegative. -/
def nonnegQP (p : Portfolio) : Bool :=
  p.stocks.all (fun s => decide (0 ≤ s.quantity) && decide (0 ≤ s.purchase_price)) &&
  p.bullions.all (fun b => decide (0 ≤ b.quantity) && decide (0 ≤ b.purchase_price)) &&
  p.forex.all (fun f => decide (0 ≤ f.quantity) && decide (0 ≤ f.purchase_price))

/- The Data Model invariants on the numeric fields: every stored quantity
and purchase price is positive. -/
def positiveQP (p : Portfolio) : Bool :=
  p.stocks.all (fun s => decide (0 < s.quantity) && decide (0 < s.purchase_price)) &&
  p.bullions.all (fun b => decide (0 < b.quantity) && decide (0 < b.purchase_price)) &&
  p.forex.all (fun f => decide (0 < f.quantity) && decide (0 < f.purchase_price))

lemma includedBy_invested_nonneg (lookupSym : α → String) (qty buyP : α → ℚ)
    (price : String → ℚ × String) (l : List α)
    (h : ∀ a ∈ l, 0 ≤ qty a ∧ 0 ≤ buyP a) :
    0 ≤ ((includedBy lookupSym price l).map (fun a => qty a * buyP a)).sum := by
  refine List.sum_nonneg ?_
  intro x hx
  obtain ⟨a, ha, rfl⟩ := List.mem_map.mp hx
  have ha2 : a ∈ l := List.mem_of_mem_filter ha
  exact mul_nonneg (h a ha2).1 (h a ha2).2

/- The portfolio of the worked example: one equity (quantity 2, bought at
100) and one forex pair the oracle cannot price. -/
def examplePortfolio : Portfolio :=
  ⟨[⟨"AAPL", 2, 100, "2024-01-02 00:00:00"⟩], [],
   [⟨"EURUSD=X", 1000, 1, "2024-01-02 00:00:00"⟩]⟩

/- The provider of the worked example: a one-day history closing at 150 for
the equity, an exception for everything else. -/
def exampleProvider : String → ProviderOutcome :=
  fun s => if s = "AAPL" then .history [150] else .raise

def examplePosition : Position :=
  { type := "📈 Stock", symbol := "AAPL", quantity := 2, buyPrice := 100
    currentPrice := 150, invested := 200, currentValue := 300, pnl := 100
    pnlPct := 50, dateAdded := "2024-01-02 00:00:00" }

lemma example_eval : get_portfolio_data exampleProvider examplePortfolio =
    .ok ([examplePosition], 200, 300, 100) := by
  norm_num [get_portfolio_data, processHoldings, oraclePrice, exampleProvider,
    examplePortfolio, get_current_price, round2, roundHalfEven, stockPosition,
    examplePosition, Position.mk.injEq,
    eq_false (show ("EURUSD=X" : String) ≠ "AAPL" from by decide)]

/- A portfolio with holdings in all three categories, one of them (the
second stock) unpriceable. -/
def orderPortfolio : Portfolio :=
  ⟨[⟨"AAPL", 2, 100, "2024-01-02 00:00:00"⟩, ⟨"MSFT", 1, 50, "2024-01-02 00:00:00"⟩],
   [⟨"Gold", "GC=F", 1, 1900, "2024-01-02 00:00:00"⟩],
   [⟨"EURUSD=X", 1000, 1, "2024-01-02 00:00:00"⟩]⟩

def orderProvider : String → ProviderOutcome :=
  fun s =>
    if s = "AAPL" then .history [150]
    else if s = "MSFT" then .history []
    else if s = "GC=F" then .history [2000]
    else if s = "EURUSD=X" then .history [11 / 10]
    else .raise

def orderPositionA : Position :=
  { type := "📈 Stock", symbol := "AAPL", quantity := 2, buyPrice := 100
    currentPrice := 150, invested := 200, currentValue := 300, pnl := 100
    pnlPct := 50, dateAdded := "2024-01-02 00:00:00" }

def orderPositionG : Position :=
  { type := "🥇 Bullion", symbol := "Gold", quantity := 1, buyPrice := 1900
    currentPrice := 2000, invested := 1900, currentValue := 2000, pnl := 100
    pnlPct := 100 / 19, dateAdded := "2024-01-02 00:00:00" }

def orderPositionE : Position :=
  { type := "💱 Forex", symbol := "EURUSD", quantity := 1000, buyPrice := 1
    currentPrice := 11 / 10, invested := 1000, currentValue := 1100, pnl := 100
    pnlPct := 10, dateAdded := "2024-01-02 00:00:00" }

lemma order_eval : get_portfolio_data orderProvider orderPortfolio =
    .ok ([orderPositionA, orderPositionG, orderPositionE], 3100, 3400, 300) := by
  norm_num [get_portfolio_data, processHoldings, oraclePrice, orderProvider,
    orderPortfolio, get_current_price, round2, roundHalfEven, stockPosition,
    bullionPosition, forexPosition, orderPositionA, orderPositionG, orderPositionE,
    Position.mk.injEq,
    show pyReplace "EURUSD=X" "=X" "" = "EURUSD" from by decide,
    eq_false (show ("MSFT" : String) ≠ "AAPL" from by decide),
    eq_false (show ("GC=F" : String) ≠ "AAPL" from by decide),
    eq_false (show ("GC=F" : String) ≠ "MSFT" from by decide),
    eq_false (show ("EURUSD=X" : String) ≠ "AAPL" from by decide),
    eq_false (show ("EURUSD=X" : String) ≠ "MSFT" from by decide),
    eq_false (show ("EURUSD=X" : String) ≠ "GC=F" from by decide)]

/- The condition under which remove_holding(category, index) mutates: the
category is a key of the portfolio dict and the index is in range for that
category. -/
def ValidRemoval (p : Portfolio) (category : String) (index : ℤ) : Prop :=
  (category = "stocks" ∧ 0 ≤ index ∧ index < (p.stocks.length : ℤ)) ∨
  (category = "bullions" ∧ 0 ≤ index ∧ index < (p.bullions.length : ℤ)) ∨
  (category = "forex" ∧ 0 ≤ index ∧ index < (p.forex.length : ℤ))

/- The portfolio with the holding at the given position of the given
category removed. -/
def removeAt (p : Portfolio) (category : String) (index : ℤ) : Portfolio :=
  if category = "stocks" then { p with stocks := p.stocks.eraseIdx index.toNat }
  else if category = "bullions" then { p with bullions := p.bullions.eraseIdx index.toNat }
  else if category = "forex" then { p with forex := p.forex.eraseIdx index.toNat }
  else p

instance (p : Portfolio) (category : String) (index : ℤ) :
    Decidable (ValidRemoval p category index) := by
  unfold ValidRemoval
  infer_instance

def removalPortfolio : Portfolio := ⟨[⟨"AAPL", 1, 1, "2024-01-02 00:00:00"⟩], [], []⟩

/-- C1: every successful valuation pass keeps exactly the holdings whose
fetched price is positive, in every category, and both totals range over
exactly those holdings; on the worked example (one equity priced 150,
quantity 2, bought at 100, plus one unpriceable forex pair) it returns one
position with totalInvested 200, totalCurrent 300 and totalPnL 100. -/
theorem valuation_excludes_unavailable :
    (∀ (provider : String → ProviderOutcome) (p : Portfolio) (pos : List Position)
      (ti tc pnl : ℚ),
      get_portfolio_data provider p = .ok (pos, ti, tc, pnl) →
      pos = stockRows provider p ++ bullionRows provider p ++ forexRows provider p ∧
      ti = stocksInvested provider p + bullionsInvested provider p + forexInvested provider p ∧
      tc = stocksCurrent provider p + bullionsCurrent provider p + forexCurrent provider p) ∧
    get_portfolio_data exampleProvider examplePortfolio =
      .ok ([examplePosition], 200, 300, 100) := by
  refine ⟨fun provider p pos ti tc pnl hok => ?_, example_eval⟩
  obtain ⟨h1, h2, h3, -⟩ := get_portfolio_data_ok provider p pos ti tc pnl hok
  exact ⟨h1, h2, h3⟩

theorem valuation_excludes_unavailable_witness :
    get_portfolio_data exampleProvider examplePortfolio =
      .ok ([examplePosition], 200, 300, 100) ∧
    [examplePosition] = stockRows exampleProvider examplePortfolio ++
      bullionRows exampleProvider examplePortfolio ++
      forexRows exampleProvider examplePortfolio :=
  ⟨valuation_excludes_unavailable.2,
   (valuation_excludes_unavailable.1 exampleProvider examplePortfolio
     [examplePosition] 200 300 100 valuation_excludes_unavailable.2).1⟩

/-- C2: for portfolios with nonnegative stored quantities and purchase
prices, a successful valuation pass reports totalPnL = totalCurrent minus
totalInvested, except that a zero totalInvested is reported as totalPnL
exactly 0 (the rationals of the model have no NaN or infinity). -/
theorem total_pnl_guarded (provider : String → ProviderOutcome) (p : Portfolio)
    (h : nonnegQP p = true) (pos : List Position) (ti tc pnl : ℚ)
    (hok : get_portfolio_data provider p = .ok (pos, ti, tc, pnl)) :
    pnl = if ti = 0 then 0 else tc - ti := by
  obtain ⟨-, hti, -, hpnl⟩ := get_portfolio_data_ok provider p pos ti tc pnl hok
  simp only [nonnegQP, Bool.and_eq_true, List.all_eq_true, decide_eq_true_eq] at h
  obtain ⟨⟨hs, hb⟩, hf⟩ := h
  have h1 : 0 ≤ stocksInvested provider p :=
    includedBy_invested_nonneg Stock.symbol Stock.quantity Stock.purchase_price
      (oraclePrice provider) p.stocks hs
  have h2 : 0 ≤ bullionsInvested provider p :=
    includedBy_invested_nonneg Bullion.symbol Bullion.quantity Bullion.purchase_price
      (oraclePrice provider) p.bullions hb
  have h3 : 0 ≤ forexInvested provider p :=
    includedBy_invested_nonneg Forex.pair Forex.quantity Forex.purchase_price
      (oraclePrice provider) p.forex hf
  have hti0 : 0 ≤ ti := hti ▸ add_nonneg (add_nonneg h1 h2) h3
  rcases eq_or_ne ti 0 with h0 | h0
  · rw [if_pos h0, hpnl, if_neg (by rw [h0]; exact lt_irrefl 0)]
  · rw [if_neg h0, hpnl, if_pos (lt_of_le_of_ne hti0 (Ne.symm h0))]

theorem total_pnl_guarded_witness :
    nonnegQP examplePortfolio = true ∧
    (100 : ℚ) = if (200 : ℚ) = 0 then 0 else 300 - 200 :=
  ⟨by decide,
   total_pnl_guarded exampleProvider examplePortfolio (by decide)
     [examplePosition] 200 300 100 example_eval⟩

/-- C8: the position list of a successful valuation pass is the included
stock rows in stored order, then the included bullion rows in stored
order, then the included forex rows in stored order. -/
theorem valuation_order (provider : String → ProviderOutcome) (p : Portfolio)
    (pos : List Position) (ti tc pnl : ℚ)
    (hok : get_portfolio_data provider p = .ok (pos, ti, tc, pnl)) :
    pos = stockRows provider p ++ bullionRows provider p ++ forexRows provider p :=
  (get_portfolio_data_ok provider p pos ti tc pnl hok).1

theorem valuation_order_witness :
    get_portfolio_data orderProvider orderPortfolio =
      .ok ([orderPositionA, orderPositionG, orderPositionE], 3100, 3400, 300) ∧
    [orderPositionA, orderPositionG, orderPositionE] =
      stockRows orderProvider orderPortfolio ++ bullionRows orderProvider orderPortfolio ++
      forexRows orderProvider orderPortfolio :=
  ⟨order_eval,
   valuation_order orderProvider orderPortfolio
     [orderPositionA, orderPositionG, orderPositionE] 3100 3400 300 order_eval⟩

/-- C10: under the Data Model invariants (every stored quantity and
purchase price positive) a valuation pass never divides by zero, so it
always returns a result; but a stored holding with quantity times purchase
price equal to zero whose lookup returns a positive price makes the pass
raise a ZeroDivisionError. -/
theorem division_guard :
    (∀ (provider : String → ProviderOutcome) (p : Portfolio), positiveQP p = true →
      (get_portfolio_data provider p).isOk = true) ∧
    get_portfolio_data (fun _ => .history [5])
      ⟨[⟨"AAPL", 2, 0, "2024-01-02 00:00:00"⟩], [], []⟩ = .error .zeroDivision := by
  constructor
  · intro provider p h
    simp only [positiveQP, Bool.and_eq_true, List.all_eq_true, decide_eq_true_eq] at h
    obtain ⟨⟨hs, hb⟩, hf⟩ := h
    rw [get_portfolio_data,
      processHoldings_eq Stock.symbol Stock.quantity Stock.purchase_price stockPosition
        (oraclePrice provider) p.stocks
        (fun a ha _ => ne_of_gt (mul_pos (hs a ha).1 (hs a ha).2)),
      processHoldings_eq Bullion.symbol Bullion.quantity Bullion.purchase_price bullionPosition
        (oraclePrice provider) p.bullions
        (fun a ha _ => ne_of_gt (mul_pos (hb a ha).1 (hb a ha).2)),
      processHoldings_eq Forex.pair Forex.quantity Forex.purchase_price forexPosition
        (oraclePrice provider) p.forex
        (fun a ha _ => ne_of_gt (mul_pos (hf a ha).1 (hf a ha).2))]
    rfl
  · norm_num [get_portfolio_data, processHoldings, oraclePrice, get_current_price,
      round2, roundHalfEven]

theorem division_guard_witness :
    positiveQP examplePortfolio = true ∧
    (get_portfolio_data exampleProvider examplePortfolio).isOk = true :=
  ⟨by decide, division_guard.1 exampleProvider examplePortfolio (by decide)⟩

/-- C3 counterexample: add_stock accepts an empty symbol and a negative
quantity and purchase price — the holding is appended and persisted, so the
add-operations do not reject invalid input before mutating. -/
theorem add_no_validation_cex :
    (add_stock true "" (-1) (-1) "2024-01-02 00:00:00" ⟨emptyPortfolio, none⟩).1.portfolio ≠
      emptyPortfolio ∧
    (add_stock true "" (-1) (-1) "2024-01-02 00:00:00" ⟨emptyPortfolio, none⟩).2 = .ok () := by
  constructor
  · intro hcontra
    simp [add_stock, save_portfolio, emptyPortfolio, Portfolio.mk.injEq] at hcontra
  · rfl

/-- C3 amended: the add-operations perform no input validation at all:
add_stock and add_forex append the (normalized) holding and persist for
every quantity, purchase price and symbol, including non-positive numbers
and empty strings; no ValidationError exists in the tracker (input
constraints live only in the UI layer). -/
theorem add_appends_unconditionally (symbol pair : String) (q pp q2 pp2 : ℚ)
    (now now2 : String) (t t2 : Tracker) :
    (add_stock true symbol q pp now t).1.portfolio.stocks =
      t.portfolio.stocks ++ [⟨pyUpper symbol, q, pp, now⟩] ∧
    (add_stock true symbol q pp now t).2 = .ok () ∧
    (add_forex true pair q2 pp2 now2 t2).1.portfolio.forex =
      t2.portfolio.forex ++ [⟨normalizePair pair, q2, pp2, now2⟩] ∧
    (add_forex true pair q2 pp2 now2 t2).2 = .ok () :=
  ⟨rfl, rfl, rfl, rfl⟩

/-- C4: with a successful write, remove_holding removes the holding at the
given position exactly when the category is one of the three known keys
and the index is in range, returning true and persisting the new
portfolio; otherwise it returns false without raising and leaves the
tracker completely unchanged. -/
theorem remove_holding_spec (p : Portfolio) (file : Option Portfolio)
    (category : String) (index : ℤ) :
    (ValidRemoval p category index →
      remove_holding true category index ⟨p, file⟩ =
        (⟨removeAt p category index, some (removeAt p category index)⟩, .ok true)) ∧
    (¬ ValidRemoval p category index →
      remove_holding true category index ⟨p, file⟩ = (⟨p, file⟩, .ok false)) := by
  constructor
  · intro h
    rcases h with ⟨hc, h1, h2⟩ | ⟨hc, h1, h2⟩ | ⟨hc, h1, h2⟩ <;> subst hc <;>
      simp [remove_holding, removeAt, save_portfolio, Except.map, h1, h2,
        eq_false (show ("bullions" : String) ≠ "stocks" from by decide),
        eq_false (show ("forex" : String) ≠ "stocks" from by decide),
        eq_false (show ("forex" : String) ≠ "bullions" from by decide)]
  · intro h
    by_cases hc1 : category = "stocks"
    · subst hc1
      have hr : ¬ (0 ≤ index ∧ index < (p.stocks.length : ℤ)) :=
        fun hr => h (Or.inl ⟨rfl, hr.1, hr.2⟩)
      simp [remove_holding, hr]
    · by_cases hc2 : category = "bullions"
      · subst hc2
        have hr : ¬ (0 ≤ index ∧ index < (p.bullions.length : ℤ)) :=
          fun hr => h (Or.inr (Or.inl ⟨rfl, hr.1, hr.2⟩))
        simp [remove_holding, hr,
          eq_false (show ("bullions" : String) ≠ "stocks" from by decide)]
      · by_cases hc3 : category = "forex"
        · subst hc3
          have hr : ¬ (0 ≤ index ∧ index < (p.forex.length : ℤ)) :=
            fun hr => h (Or.inr (Or.inr ⟨rfl, hr.1, hr.2⟩))
          simp [remove_holding, hr,
            eq_false (show ("forex" : String) ≠ "stocks" from by decide),
            eq_false (show ("forex" : String) ≠ "bullions" from by decide)]
        · simp [remove_holding, hc1, hc2, hc3]

theorem remove_holding_spec_witness :
    ValidRemoval removalPortfolio "stocks" 0 ∧
    remove_holding true "stocks" 0 ⟨removalPortfolio, none⟩ =
      (⟨emptyPortfolio, some emptyPortfolio⟩, .ok true) ∧
    ¬ ValidRemoval removalPortfolio "stocks" 5 ∧
    remove_holding true "stocks" 5 ⟨removalPortfolio, none⟩ =
      (⟨removalPortfolio, none⟩, .ok false) := by
  refine ⟨by decide, ?_, by decide,
    (remove_holding_spec removalPortfolio none "stocks" 5).2 (by decide)⟩
  have h := (remove_holding_spec removalPortfolio none "stocks" 0).1 (by decide)
  rw [h]
  rfl

/-- C5 counterexample: a persistence failure during add_stock surfaces the
PersistenceError, but the in-memory Portfolio already holds the appended
stock — the failing operation is not fail-clean. -/
theorem fail_clean_cex :
    (add_stock false "AAPL" 1 1 "2024-01-02 00:00:00" ⟨emptyPortfolio, none⟩).2 =
      .error .persistence ∧
    (add_stock false "AAPL" 1 1 "2024-01-02 00:00:00" ⟨emptyPortfolio, none⟩).1.portfolio ≠
      emptyPortfolio := by
  constructor
  · rfl
  · intro hcontra
    simp [add_stock, save_portfolio, emptyPortfolio, Portfolio.mk.injEq] at hcontra

/-- C5 amended: when the persistence write fails, every mutating operation
surfaces the error with the persisted document unchanged, but the
in-memory Portfolio still receives the mutation — it ends in the same
in-memory state as a successful call, not rolled back. -/
theorem persistence_failure_keeps_memory_mutation (symbol metal pair category : String)
    (q pp : ℚ) (now : String) (index : ℤ) (t : Tracker) :
    ((add_stock false symbol q pp now t).1.file = t.file ∧
      (add_stock false symbol q pp now t).1.portfolio =
        (add_stock true symbol q pp now t).1.portfolio) ∧
    ((add_bullion false metal q pp now t).1.file = t.file ∧
      (add_bullion false metal q pp now t).1.portfolio =
        (add_bullion true metal q pp now t).1.portfolio) ∧
    ((add_forex false pair q pp now t).1.file = t.file ∧
      (add_forex false pair q pp now t).1.portfolio =
        (add_forex true pair q pp now t).1.portfolio) ∧
    ((remove_holding false category index t).1.file = t.file ∧
      (remove_holding false category index t).1.portfolio =
        (remove_holding true category index t).1.portfolio) ∧
    ((clear_portfolio false t).1.file = t.file ∧
      (clear_portfolio false t).1.portfolio = (clear_portfolio true t).1.portfolio) := by
  refine ⟨⟨rfl, rfl⟩, ?_, ⟨rfl, rfl⟩, ?_, ⟨rfl, rfl⟩⟩
  · cases hm : bullionSymbolMap metal <;> simp [add_bullion, hm, save_portfolio]
  · by_cases hc1 : category = "stocks"
    · subst hc1
      by_cases hr : 0 ≤ index ∧ index < (t.portfolio.stocks.length : ℤ) <;>
        simp [remove_holding, save_portfolio, hr]
    · by_cases hc2 : category = "bullions"
      · subst hc2
        by_cases hr : 0 ≤ index ∧ index < (t.portfolio.bullions.length : ℤ) <;>
          simp [remove_holding, save_portfolio, hr,
            eq_false (show ("bullions" : String) ≠ "stocks" from by decide)]
      · by_cases hc3 : category = "forex"
        · subst hc3
          by_cases hr : 0 ≤ index ∧ index < (t.portfolio.forex.length : ℤ) <;>
            simp [remove_holding, save_portfolio, hr,
              eq_false (show ("forex" : String) ≠ "stocks" from by decide),
              eq_false (show ("forex" : String) ≠ "bullions" from by decide)]
        · simp [remove_holding, hc1, hc2, hc3]

/-- C6 counterexample: a provider history whose last close is 0.001 rounds
to a price of 0, yet the status is "Success" — data being available does
not guarantee a positive returned price. -/
theorem price_success_not_positive_cex :
    ¬ (0 < (get_current_price (.history [1 / 1000])).1) ∧
    (get_current_price (.history [1 / 1000])).2 = "Success" := by
  constructor
  · norm_num [get_current_price, round2, roundHalfEven]
  · rfl

/-- C6 amended: get_current_price is total over the provider outcome (a
provider exception is mapped to the unavailable result (0, "Error"), an
empty history to (0, "No data"), never re-raised), and when data is
available it returns the last close rounded to two decimals with the
"Success" status — a price that is positive unless the close rounds to
zero or below. -/
theorem get_current_price_spec :
    get_current_price .raise = (0, "Error") ∧
    get_current_price (.history []) = (0, "No data") ∧
    ∀ (l : List ℚ) (c : ℚ),
      get_current_price (.history (l ++ [c])) = (round2 c, "Success") := by
  refine ⟨rfl, rfl, fun l c => ?_⟩
  simp [get_current_price, List.getLast?_concat]

/-- C7: immediately after any successful add-operation (for add_bullion,
one whose metal is in the symbol map), the persisted document reloaded
through load_portfolio equals the in-memory portfolio. -/
theorem add_roundtrip :
    (∀ (symbol : String) (q pp : ℚ) (now : String) (t : Tracker),
      (add_stock true symbol q pp now t).2 = .ok () ∧
      load_portfolio (add_stock true symbol q pp now t).1.file =
        (add_stock true symbol q pp now t).1.portfolio) ∧
    (∀ (metal msym : String) (q pp : ℚ) (now : String) (t : Tracker),
      bullionSymbolMap metal = some msym →
      (add_bullion true metal q pp now t).2 = .ok () ∧
      load_portfolio (add_bullion true metal q pp now t).1.file =
        (add_bullion true metal q pp now t).1.portfolio) ∧
    (∀ (pair : String) (q pp : ℚ) (now : String) (t : Tracker),
      (add_forex true pair q pp now t).2 = .ok () ∧
      load_portfolio (add_forex true pair q pp now t).1.file =
        (add_forex true pair q pp now t).1.portfolio) := by
  refine ⟨fun symbol q pp now t => ⟨rfl, rfl⟩,
    fun metal msym q pp now t hm => ?_,
    fun pair q pp now t => ⟨rfl, rfl⟩⟩
  simp [add_bullion, hm, save_portfolio, load_portfolio]

theorem add_roundtrip_witness :
    bullionSymbolMap "Gold" = some "GC=F" ∧
    load_portfolio
        (add_bullion true "Gold" 1 2000 "2024-01-02 00:00:00" ⟨emptyPortfolio, none⟩).1.file =
      (add_bullion true "Gold" 1 2000 "2024-01-02 00:00:00" ⟨emptyPortfolio, none⟩).1.portfolio :=
  ⟨rfl,
   (add_roundtrip.2.1 "Gold" "GC=F" 1 2000 "2024-01-02 00:00:00"
     ⟨emptyPortfolio, none⟩ rfl).2⟩

/-- C9: add_forex stores the pair "eurusd" and the pair "EURUSD=X" under
the same normalized identifier "EURUSD=X". -/
theorem forex_normalization (q pp : ℚ) (now : String) (t : Tracker) :
    (add_forex true "eurusd" q pp now t).1.portfolio.forex =
      t.portfolio.forex ++ [⟨"EURUSD=X", q, pp, now⟩] ∧
    (add_forex true "EURUSD=X" q pp now t).1.portfolio.forex =
      t.portfolio.forex ++ [⟨"EURUSD=X", q, pp, now⟩] := by
  constructor <;>
    simp [add_forex, save_portfolio,
      show normalizePair "eurusd" = "EURUSD=X" from by decide,
      show normalizePair "EURUSD=X" = "EURUSD=X" from by decide]
